import Mathlib

/-!
Shallow embedding of the dbus-config-manager repository
(src/configurationManager.cpp and src/configurationClient.cpp).

The embedding models the sequential semantics of the broker and client:
  - values carried in an sdbus::Variant (a D-Bus variant that may be empty,
    may hold one of the four scalar types the program handles, or may hold
    any other D-Bus type such as an array or dictionary);
  - the JSON documents handled by nlohmann::json (the byte-level parser is
    external to the repository; a file is therefore modelled by its parse
    outcome: absent, a parse error with its message, or a parsed document);
  - the per-application configuration object ApplicationConfiguration
    (parseConfig, changeConfiguration, getConfiguration, saveConfigToFile,
    emitConfigurationChanged);
  - the broker startup scan ConfigurationManager::getApplicationsConfigs and
    the registration loop of ConfigurationManager::initialize;
  - the client cache ClientApplication (loadConfiguration and
    handleConfigurationChange).
C++ exceptions are modelled with Except over an error type that records the
dynamic exception class and message.  A method that throws leaves the object
in the state it had at the throw site, so state-mutating methods return the
post-call state in every outcome.  Logging, threads and the D-Bus transport
are outside the embedding; emitted signals are returned as values.
-/

/-- A value stored inside a non-empty sdbus::Variant.  The program only ever
constructs and reads the four scalar alternatives; `vOther` stands for a
variant holding any other D-Bus type (array, dictionary, other integer
widths, ...), identified by its D-Bus type signature.  Doubles are carried
as opaque 64-bit patterns: the program never performs floating-point
arithmetic on them, it only stores and forwards them. -/
inductive DBusValue where
  | vString (s : String)
  | vInt64 (n : Int)
  | vDouble (bits : Nat)
  | vBool (b : Bool)
  | vOther (sig : String)
deriving DecidableEq, Repr

/-- sdbus::Variant: a default-constructed variant is empty (`none`). -/
abbrev Variant := Option DBusValue

/-- sdbus::Variant::isEmpty. -/
def Variant.isEmpty (v : Variant) : Bool := v.isNone

/-- Variant::containsValueOfType<std::string>(). -/
def Variant.holdsString (v : Variant) : Bool :=
  match v with
  | some (.vString _) => true
  | _ => false

/-- Variant::containsValueOfType<int64_t>(). -/
def Variant.holdsInt64 (v : Variant) : Bool :=
  match v with
  | some (.vInt64 _) => true
  | _ => false

/-- Variant::containsValueOfType<double>(). -/
def Variant.holdsDouble (v : Variant) : Bool :=
  match v with
  | some (.vDouble _) => true
  | _ => false

/-- Variant::containsValueOfType<bool>(). -/
def Variant.holdsBool (v : Variant) : Bool :=
  match v with
  | some (.vBool _) => true
  | _ => false

/-- Variant::get<int64_t>(): succeeds exactly when the variant holds an
int64; any other content makes the C++ call throw, which the client code
always catches, so it is modelled as `Option`. -/
def Variant.getInt64 (v : Variant) : Option Int :=
  match v with
  | some (.vInt64 n) => some n
  | _ => none

/-- Variant::get<std::string>(), same convention as `Variant.getInt64`. -/
def Variant.getString (v : Variant) : Option String :=
  match v with
  | some (.vString s) => some s
  | _ => none

/-- A parsed nlohmann::json document.  Integer and floating JSON numbers are
distinct storage kinds in nlohmann::json, mirrored here. -/
inductive Json where
  | jStr (s : String)
  | jInt (n : Int)
  | jFloat (bits : Nat)
  | jBool (b : Bool)
  | jNull
  | jArr (elems : List Json)
  | jObj (fields : List (String × Json))
deriving Repr

/-- The nlohmann type name used in json exception messages. -/
def Json.typeName : Json → String
  | .jStr _ => "string"
  | .jInt _ => "number"
  | .jFloat _ => "number"
  | .jBool _ => "boolean"
  | .jNull => "null"
  | .jArr _ => "array"
  | .jObj _ => "object"

/-- A thrown C++ exception, identified by its dynamic class and message. -/
inductive CppErr where
  | runtimeError (msg : String)
  | invalidArgument (msg : String)
  | jsonTypeError (code : Nat) (msg : String)
  | jsonParseError (msg : String)
deriving DecidableEq, Repr

/-- The dynamic type of the exception: this is what a caller can
discriminate on with catch clauses (the "error kind"). -/
def CppErr.kind : CppErr → String
  | .runtimeError _ => "std::runtime_error"
  | .invalidArgument _ => "std::invalid_argument"
  | .jsonTypeError _ _ => "nlohmann::json::type_error"
  | .jsonParseError _ => "nlohmann::json::parse_error"

/-- what() of the exception, as the program concatenates it into wrapper
messages. -/
def CppErr.what : CppErr → String
  | .runtimeError m => m
  | .invalidArgument m => m
  | .jsonTypeError c m => "[json.exception.type_error." ++ toString c ++ "] " ++ m
  | .jsonParseError m => m

/-- config_dict = std::map<std::string, sdbus::Variant>, modelled as an
association list with unique keys (std::map keeps one entry per key). -/
abbrev ConfigDict := List (String × Variant)

/-- Lookup by key (std::map::find / at / count). -/
def listLookup {α : Type} (m : List (String × α)) (k : String) : Option α :=
  match m with
  | [] => none
  | (k1, v1) :: rest => if k1 = k then some v1 else listLookup rest k

/-- std::map / std::unordered_map operator[] followed by assignment:
replaces the mapped value in place when the key is present, appends a new
entry otherwise. -/
def listUpdate {α : Type} (m : List (String × α)) (k : String) (v : α) :
    List (String × α) :=
  match m with
  | [] => [(k, v)]
  | (k1, v1) :: rest =>
    if k1 = k then (k, v) :: rest else (k1, v1) :: listUpdate rest k v

/-- nlohmann::adl_serializer<sdbus::Variant>::from_json
(src/configurationManager.cpp lines 30-44): the four scalar JSON kinds are
converted in the source's test order, every other kind throws
json::type_error 302. -/
def variantFromJson (j : Json) : Except CppErr Variant :=
  match j with
  | .jStr s => .ok (some (.vString s))
  | .jInt n => .ok (some (.vInt64 n))
  | .jFloat b => .ok (some (.vDouble b))
  | .jBool b => .ok (some (.vBool b))
  | _ => .error (.jsonTypeError 302 "Unsupported type for variant conversion")

/-- json::get<config_dict>(): requires an object, then converts each field
value through `variantFromJson`, stopping at the first failure. -/
def jsonGetConfigDict (j : Json) : Except CppErr ConfigDict :=
  match j with
  | .jObj fields => goFields fields
  | _ => .error (.jsonTypeError 302 ("type must be object, but is " ++ j.typeName))
where
  goFields : List (String × Json) → Except CppErr ConfigDict
    | [] => .ok []
    | (k, jv) :: rest => do
      let v ← variantFromJson jv
      let tail ← goFields rest
      .ok ((k, v) :: tail)

/-- A configuration file as seen by the program: `none` when the file cannot
be opened, otherwise the outcome of the external byte-level JSON parser
(json::parse): either a parse-error message or the parsed document. -/
abbrev FileOnDisk := Option (Except String Json)

/-- ApplicationConfiguration::parseConfig
(src/configurationManager.cpp lines 124-144): an unopenable file raises
"Could not open config file", json::parse failures and get<config_dict>
failures propagate, and the surrounding catch rewraps every failure into a
std::runtime_error with the prefix "Config parsing failed: ". -/
def parseConfig (file : FileOnDisk) : Except CppErr ConfigDict :=
  match file with
  | none =>
    .error (.runtimeError ("Config parsing failed: " ++ "Could not open config file"))
  | some (.error m) =>
    .error (.runtimeError ("Config parsing failed: " ++ (CppErr.jsonParseError m).what))
  | some (.ok j) =>
    match jsonGetConfigDict j with
    | .error e => .error (.runtimeError ("Config parsing failed: " ++ e.what))
    | .ok d => .ok d

/-- A supported variant is one the save loop serializes: exactly the four
containsValueOfType tests of saveConfigToFile. -/
def Variant.supported (v : Variant) : Bool :=
  v.holdsString || v.holdsInt64 || v.holdsDouble || v.holdsBool

/-- The JSON value the save loop writes for a variant, `none` when the
variant matches none of the four type tests and the entry is skipped
(src/configurationManager.cpp lines 176-186, the if/else-if chain). -/
def variantToJson (v : Variant) : Option Json :=
  match v with
  | some (.vString s) => some (.jStr s)
  | some (.vInt64 n) => some (.jInt n)
  | some (.vDouble b) => some (.jFloat b)
  | some (.vBool b) => some (.jBool b)
  | _ => none

/-- nlohmann json operator[] assignment `config[key] = x` on the document
being built: a default-constructed json is null and becomes an object on
first insertion. -/
def jsonObjSet (doc : Json) (k : String) (x : Json) : Json :=
  match doc with
  | .jObj fields => .jObj (listUpdate fields k x)
  | _ => .jObj [(k, x)]

/-- The loop body of ApplicationConfiguration::saveConfigToFile
(src/configurationManager.cpp lines 169-203): iterate the configuration in
order, writing each entry whose variant passes one of the four type tests
and silently skipping every other entry. -/
def saveLoop (doc : Json) (cfg : ConfigDict) : Json :=
  match cfg with
  | [] => doc
  | (k, v) :: rest =>
    match variantToJson v with
    | some x => saveLoop (jsonObjSet doc k x) rest
    | none => saveLoop doc rest

/-- ApplicationConfiguration::saveConfigToFile: the document written to the
configuration file (`json config;` starts as null).  File-system write
failures are logged and swallowed in the source and do not affect the
document, so the function is total. -/
def saveConfigToFile (cfg : ConfigDict) : Json :=
  saveLoop .jNull cfg

/-- The entries of the written document: a null document (no supported
entry was ever inserted) carries no key/value pairs. -/
def Json.objFields : Json → List (String × Json)
  | .jObj fields => fields
  | _ => []

/-- State of one ApplicationConfiguration object: its configuration map.
The mutex only serializes access and has no sequential content. -/
structure AppConfigState where
  configuration : ConfigDict
deriving Repr

/-- Observable effects of one ChangeConfiguration call, together with the
outcome and the post-call state of the object. -/
structure CallResult where
  outcome : Except CppErr Unit
  state : AppConfigState
  signals : List ConfigDict
  written : Option Json
deriving Repr

/-- ApplicationConfiguration::changeConfiguration
(src/configurationManager.cpp lines 146-167): an empty key or an empty
variant throws std::invalid_argument before any mutation; otherwise the map
entry is assigned, emitConfigurationChanged sends one configurationChanged
signal carrying the configuration member (the full updated map), and
saveConfigToFile writes the serialized map.  `signals` lists the map
carried by each emitted configurationChanged signal, in order. -/
def changeConfiguration (st : AppConfigState) (key : String) (val : Variant) :
    CallResult :=
  if key = "" then
    { outcome := .error (.invalidArgument "Key cannot be empty")
      state := st, signals := [], written := none }
  else if val.isEmpty then
    { outcome := .error (.invalidArgument "Value cannot be empty")
      state := st, signals := [], written := none }
  else
    let cfg := listUpdate st.configuration key val
    { outcome := .ok ()
      state := { configuration := cfg }
      signals := [cfg]
      written := some (saveConfigToFile cfg) }

/-- ApplicationConfiguration::getConfiguration
(src/configurationManager.cpp lines 205-209): returns a copy of the map. -/
def getConfiguration (st : AppConfigState) : ConfigDict :=
  st.configuration

/-! Broker startup: directory scan and endpoint registration. -/

/-- One entry yielded by std::filesystem::directory_iterator: its path and
whether it is a regular file. -/
structure DirEntry where
  path : String
  isRegularFile : Bool
deriving DecidableEq, Repr

/-- The characters after the last slash: accumulator-style scan. -/
def filenameChars : List Char → List Char → List Char
  | [], acc => acc
  | c :: rest, acc =>
    if c = '/' then filenameChars rest [] else filenameChars rest (acc ++ [c])

/-- std::filesystem::path::filename: the component after the last
directory separator. -/
def fsFilename (p : String) : String :=
  String.mk (filenameChars p.toList [])

/-- Index of the last dot in a character list, if any. -/
def lastDotIdx (cs : List Char) : Option Nat :=
  match cs with
  | [] => none
  | c :: rest =>
    match lastDotIdx rest with
    | some i => some (i + 1)
    | none => if c = '.' then some 0 else none

/-- std::filesystem::path::extension: the suffix of the filename from its
last dot; the names "." and "..", names without a dot, and names whose only
dot is the leading one (hidden files) have no extension. -/
def fsExtension (p : String) : String :=
  let f := fsFilename p
  if f = "." || f = ".." then ""
  else
    match lastDotIdx f.toList with
    | none => ""
    | some 0 => ""
    | some i => String.mk (f.toList.drop i)

/-- std::filesystem::path::stem: the filename with its extension removed
(stem ++ extension = filename). -/
def fsStem (p : String) : String :=
  let f := fsFilename p
  if f = "." || f = ".." then f
  else
    match lastDotIdx f.toList with
    | none => f
    | some 0 => f
    | some i => String.mk (f.toList.take i)

/-- ConfigurationManager::getApplicationsConfigs
(src/configurationManager.cpp lines 368-399): iterate the directory entries
in the order the iterator yields them, keep every regular file whose
extension is ".json" as a (path, stem) pair, and fail when no pair remains.
Nothing in the loop detects or skips repeated stems. -/
def getApplicationsConfigs (configDir : String) (entries : List DirEntry) :
    Except CppErr (List (String × String)) :=
  let applicationsData := entries.filterMap (fun e =>
    if e.isRegularFile && fsExtension e.path == ".json" then
      some (e.path, fsStem e.path)
    else none)
  if applicationsData.isEmpty then
    .error (.runtimeError ("No valid configuration files found in " ++ configDir))
  else
    .ok applicationsData

/-- The D-Bus service name of the broker. -/
def serviceName : String := "com.system.configurationManager"

/-- ConfigurationManager::buildApplicationsObjectPath
(src/configurationManager.cpp lines 401-406). -/
def buildApplicationsObjectPath (appName : String) : String :=
  String.mk ((("/" ++ serviceName).toList).map (fun c => if c = '.' then '/' else c)) ++
    "/Application/" ++ appName

/-- One registered ApplicationEndpoint: the D-Bus object path it serves,
the configuration file it owns, and its in-memory configuration. -/
structure AppEndpoint where
  objectPath : String
  configPath : String
  state : AppConfigState
deriving Repr

/-- The registration loop of ConfigurationManager::initialize
(src/configurationManager.cpp lines 330-349): for each discovered
(path, name) pair, construct an ApplicationConfiguration (whose constructor
parses the file and rethrows any failure, aborting the whole startup) and
assign it into the unordered_map with operator[], which overwrites any
endpoint previously registered under the same name. -/
def registerLoop (fs : String → FileOnDisk) (acc : List (String × AppEndpoint)) :
    List (String × String) → Except CppErr (List (String × AppEndpoint))
  | [] => .ok acc
  | (path, name) :: rest =>
    match parseConfig (fs path) with
    | .error e =>
      .error (.runtimeError ("Failed to create ApplicationConfiguration: " ++ e.what))
    | .ok d =>
      registerLoop fs
        (listUpdate acc name
          { objectPath := buildApplicationsObjectPath name
            configPath := path
            state := { configuration := d } })
        rest

/-- ConfigurationManager::initialize, restricted to its observable
registration effect: scan the directory, then register one endpoint per
discovered pair.  `fs` maps a path to the file found there. -/
def brokerInitialize (configDir : String) (fs : String → FileOnDisk)
    (entries : List DirEntry) : Except CppErr (List (String × AppEndpoint)) := do
  let applicationsData ← getApplicationsConfigs configDir entries
  registerLoop fs [] applicationsData

/-! Client side: cache and notification handler. -/

/-- The client's cached configuration: ClientApplication::timeout and
ClientApplication::timeoutPhrase, both guarded by configMutex. -/
structure ClientCache where
  timeout : Int
  timeoutPhrase : String
deriving DecidableEq, Repr

/-- ClientApplication::handleConfigurationChange
(src/configurationClient.cpp lines 129-175): for each of the two recognized
keys present in the delivered map, parse it with the strictly-typed
Variant::get and assign the cache field; a per-key parse failure is caught,
logged and leaves that field unchanged. -/
def handleConfigurationChange (newConfig : ConfigDict) (c : ClientCache) :
    ClientCache :=
  let c1 :=
    match listLookup newConfig "Timeout" with
    | some v =>
      match v.getInt64 with
      | some n => { c with timeout := n }
      | none => c
    | none => c
  match listLookup newConfig "TimeoutPhrase" with
  | some v =>
    match v.getString with
    | some s => { c1 with timeoutPhrase := s }
    | none => c1
  | none => c1

/-- nlohmann json operator[] with a string key on a non-const json
(the read branch of ClientApplication::loadConfiguration): on an object it
returns the mapped value, or inserts and returns null when the key is
missing; on null it converts the document to an object and returns the
inserted null; on any other kind it throws type_error 305. -/
def jsonIndex (j : Json) (k : String) : Except CppErr Json :=
  match j with
  | .jObj fields =>
    match listLookup fields k with
    | some v => .ok v
    | none => .ok .jNull
  | .jNull => .ok .jNull
  | _ =>
    .error (.jsonTypeError 305
      ("cannot use operator[] with a string argument with " ++ j.typeName))

/-- json::get<int64_t>(): only an integer-stored number converts. -/
def jsonGetInt64 (j : Json) : Except CppErr Int :=
  match j with
  | .jInt n => .ok n
  | _ => .error (.jsonTypeError 302 ("type must be number, but is " ++ j.typeName))

/-- json::get<std::string>(). -/
def jsonGetString (j : Json) : Except CppErr String :=
  match j with
  | .jStr s => .ok s
  | _ => .error (.jsonTypeError 302 ("type must be string, but is " ++ j.typeName))

/-- Outcome of ClientApplication::loadConfiguration: whether it returned or
threw, the cache fields at that point, and the file it wrote, if any. -/
structure ClientLoadResult where
  outcome : Except CppErr Unit
  cache : ClientCache
  written : Option Json
deriving Repr

/-- The document ClientApplication::createConfig writes
(src/configurationClient.cpp lines 106-111). -/
def clientDefaultDoc (timeout : Int) (phrase : String) : Json :=
  .jObj [("Timeout", .jInt timeout), ("TimeoutPhrase", .jStr phrase)]

/-- ClientApplication::loadConfiguration
(src/configurationClient.cpp lines 67-104): when the file is absent or
forceCreateConf is set, createConfig writes the defaults and the function
returns with the cache still holding the constructor arguments; otherwise
the file is parsed and the Timeout and TimeoutPhrase fields are read in
that order, each failure rethrown to the caller (with the timeout field
already assigned when only the phrase read fails). -/
def loadConfiguration (forceCreateConf : Bool) (file : FileOnDisk)
    (timeout : Int) (timeoutPhrase : String) : ClientLoadResult :=
  match file with
  | none =>
    { outcome := .ok ()
      cache := { timeout := timeout, timeoutPhrase := timeoutPhrase }
      written := some (clientDefaultDoc timeout timeoutPhrase) }
  | some content =>
    if forceCreateConf then
      { outcome := .ok ()
        cache := { timeout := timeout, timeoutPhrase := timeoutPhrase }
        written := some (clientDefaultDoc timeout timeoutPhrase) }
    else
      match content with
      | .error m =>
        { outcome := .error (.jsonParseError m)
          cache := { timeout := timeout, timeoutPhrase := timeoutPhrase }
          written := none }
      | .ok config =>
        match jsonIndex config "Timeout" >>= jsonGetInt64 with
        | .error e =>
          { outcome := .error e
            cache := { timeout := timeout, timeoutPhrase := timeoutPhrase }
            written := none }
        | .ok t =>
          match jsonIndex config "TimeoutPhrase" >>= jsonGetString with
          | .error e =>
            { outcome := .error e
              cache := { timeout := t, timeoutPhrase := timeoutPhrase }
              written := none }
          | .ok p =>
            { outcome := .ok ()
              cache := { timeout := t, timeoutPhrase := p }
              written := none }

/-- The private delegating constructor
ClientApplication(int64_t, const std::string&, bool)
(src/configurationClient.cpp lines 39-48), restricted to its
loadConfiguration effect. -/
def clientCtorPrivate (timeout : Int) (timeoutPhrase : String)
    (forceCreate : Bool) (file : FileOnDisk) : ClientLoadResult :=
  loadConfiguration forceCreate file timeout timeoutPhrase

/-- The public two-argument constructor
(src/configurationClient.cpp lines 29-32): delegates with forceCreate =
true. -/
def clientCtorPublic (timeout : Int) (timeoutPhrase : String)
    (file : FileOnDisk) : ClientLoadResult :=
  clientCtorPrivate timeout timeoutPhrase true file

/-- The public default constructor (src/configurationClient.cpp line 27):
delegates with (1000, "Hey", true). -/
def clientCtorDefault (file : FileOnDisk) : ClientLoadResult :=
  clientCtorPrivate 1000 "Hey" true file

/-- The last configuration path discovered for a given application name, in
discovery order (later pairs shadow earlier ones). -/
def lastConfigFor : List (String × String) → String → Option String
  | [], _ => none
  | (path, nm) :: rest, name =>
    match lastConfigFor rest name with
    | some p => some p
    | none => if nm = name then some path else none

/-- A JSON kind outside the four the program supports (string, integer,
float, boolean): null, arrays and objects. -/
def Json.unsupportedKind : Json → Bool
  | .jNull => true
  | .jArr _ => true
  | .jObj _ => true
  | _ => false

/-! Helper lemmas about association-list maps. -/

theorem listLookup_listUpdate_self {α : Type} (m : List (String × α)) (k : String)
    (v : α) : listLookup (listUpdate m k v) k = some v := by
  induction m with
  | nil => simp [listUpdate, listLookup]
  | cons hd tl ih =>
    obtain ⟨k1, v1⟩ := hd
    by_cases h : k1 = k <;> simp [listUpdate, listLookup, h, ih]

theorem listLookup_listUpdate_ne {α : Type} (m : List (String × α)) (k k2 : String)
    (v : α) (h : k ≠ k2) : listLookup (listUpdate m k v) k2 = listLookup m k2 := by
  induction m with
  | nil => simp [listUpdate, listLookup, h]
  | cons hd tl ih =>
    obtain ⟨k1, v1⟩ := hd
    by_cases h1 : k1 = k
    · subst h1
      simp [listUpdate, listLookup, h]
    · simp [listUpdate, listLookup, h1, ih]

theorem mem_keys_listUpdate {α : Type} (m : List (String × α)) (k a : String)
    (v : α) (h : a ∈ (listUpdate m k v).map Prod.fst) :
    a ∈ m.map Prod.fst ∨ a = k := by
  induction m with
  | nil =>
    rw [show listUpdate ([] : List (String × α)) k v = [(k, v)] from rfl] at h
    rcases List.mem_cons.mp h with h | h
    · exact Or.inr h
    · exact absurd h (List.not_mem_nil a)
  | cons hd tl ih =>
    obtain ⟨k1, v1⟩ := hd
    by_cases h1 : k1 = k
    · subst h1
      rw [show listUpdate ((k1, v1) :: tl) k1 v = (k1, v) :: tl from by
        simp [listUpdate]] at h
      rcases List.mem_cons.mp h with h | h
      · exact Or.inr h
      · exact Or.inl (List.mem_cons.mpr (Or.inr h))
    · rw [show listUpdate ((k1, v1) :: tl) k v = (k1, v1) :: listUpdate tl k v from by
        simp [listUpdate, h1]] at h
      rcases List.mem_cons.mp h with h | h
      · exact Or.inl (List.mem_cons.mpr (Or.inl h))
      · rcases ih h with h2 | h2
        · exact Or.inl (List.mem_cons.mpr (Or.inr h2))
        · exact Or.inr h2

theorem nodup_keys_listUpdate {α : Type} (m : List (String × α)) (k : String)
    (v : α) (h : (m.map Prod.fst).Nodup) :
    ((listUpdate m k v).map Prod.fst).Nodup := by
  induction m with
  | nil => simp [listUpdate]
  | cons hd tl ih =>
    obtain ⟨k1, v1⟩ := hd
    rw [List.map_cons, List.nodup_cons] at h
    by_cases h1 : k1 = k
    · subst h1
      rw [show listUpdate ((k1, v1) :: tl) k1 v = (k1, v) :: tl from by
        simp [listUpdate]]
      rw [List.map_cons, List.nodup_cons]
      exact h
    · rw [show listUpdate ((k1, v1) :: tl) k v = (k1, v1) :: listUpdate tl k v from by
        simp [listUpdate, h1]]
      rw [List.map_cons, List.nodup_cons]
      refine ⟨?_, ih h.2⟩
      intro hmem
      rcases mem_keys_listUpdate tl k k1 v hmem with h2 | h2
      · exact h.1 h2
      · exact h1 h2

/-- C2: a successful ChangeConfiguration(key, value) call emits exactly one
configurationChanged signal; the map it carries is the full post-call
configuration (every key of the store, not a diff) and maps the changed key
to the newly set value. -/
theorem changeConfiguration_emits_one_full_snapshot
    (st : AppConfigState) (key : String) (val : Variant)
    (h : (changeConfiguration st key val).outcome = .ok ()) :
    (changeConfiguration st key val).signals =
      [(changeConfiguration st key val).state.configuration] ∧
    listLookup (changeConfiguration st key val).state.configuration key = some val := by
  by_cases hk : key = ""
  · simp [changeConfiguration, hk] at h
  · by_cases hv : val.isEmpty
    · simp [changeConfiguration, hk, hv] at h
    · refine ⟨by simp [changeConfiguration, hk, hv], ?_⟩
      simp [changeConfiguration, hk, hv, listLookup_listUpdate_self]

/-- Witness for C2 at a concrete call. -/
theorem changeConfiguration_emits_one_full_snapshot_witness :
    (changeConfiguration { configuration := [("a", some (.vInt64 1))] }
        "Timeout" (some (.vInt64 500))).signals =
      [(changeConfiguration { configuration := [("a", some (.vInt64 1))] }
        "Timeout" (some (.vInt64 500))).state.configuration] ∧
    listLookup (changeConfiguration { configuration := [("a", some (.vInt64 1))] }
        "Timeout" (some (.vInt64 500))).state.configuration "Timeout" =
      some (some (.vInt64 500)) :=
  changeConfiguration_emits_one_full_snapshot
    { configuration := [("a", some (.vInt64 1))] } "Timeout" (some (.vInt64 500)) rfl

/-- C3: for every store state, non-empty key and present (non-empty) value,
Set(key, value) succeeds and a following GetAll returns a map whose entry
for that key is exactly the written value. -/
theorem set_then_getAll_reads_back
    (st : AppConfigState) (key : String) (val : Variant)
    (hk : key ≠ "") (hv : val.isEmpty = false) :
    (changeConfiguration st key val).outcome = .ok () ∧
    listLookup (getConfiguration (changeConfiguration st key val).state) key =
      some val := by
  refine ⟨by simp [changeConfiguration, hk, hv], ?_⟩
  simp [changeConfiguration, getConfiguration, hk, hv, listLookup_listUpdate_self]

/-- Witness for C3 at a concrete store, key and value. -/
theorem set_then_getAll_reads_back_witness :
    (changeConfiguration { configuration := [] } "TimeoutPhrase"
        (some (.vString "yo"))).outcome = .ok () ∧
    listLookup (getConfiguration
        (changeConfiguration { configuration := [] } "TimeoutPhrase"
          (some (.vString "yo"))).state) "TimeoutPhrase" =
      some (some (.vString "yo")) :=
  set_then_getAll_reads_back { configuration := [] } "TimeoutPhrase"
    (some (.vString "yo")) (by decide) rfl

/-- C4: ChangeConfiguration(key, value) fails if and only if the key is the
empty string or the variant is empty; every failure is a
std::invalid_argument, leaves the store unchanged and produces no signal
and no file write; on success the entry for the key is replaced or
inserted. -/
theorem changeConfiguration_invalid_argument_characterization
    (st : AppConfigState) (key : String) (val : Variant) :
    ((∃ e, (changeConfiguration st key val).outcome = .error e) ↔
      (key = "" ∨ val = none)) ∧
    (∀ e, (changeConfiguration st key val).outcome = .error e →
      (∃ msg, e = .invalidArgument msg) ∧
      (changeConfiguration st key val).state = st ∧
      (changeConfiguration st key val).signals = [] ∧
      (changeConfiguration st key val).written = none) ∧
    (key ≠ "" → val ≠ none →
      (changeConfiguration st key val).outcome = .ok () ∧
      (changeConfiguration st key val).state.configuration =
        listUpdate st.configuration key val) := by
  have hemp : val.isEmpty = true ↔ val = none := by
    cases val <;> simp [Variant.isEmpty]
  constructor
  · constructor
    · rintro ⟨e, he⟩
      by_cases hk : key = ""
      · exact Or.inl hk
      · by_cases hv : val = none
        · exact Or.inr hv
        · have hvb : val.isEmpty = false := by
            cases val
            · exact absurd rfl hv
            · rfl
          simp [changeConfiguration, hk, hvb] at he
    · rintro (hk | hv)
      · exact ⟨.invalidArgument "Key cannot be empty", by simp [changeConfiguration, hk]⟩
      · by_cases hk : key = ""
        · exact ⟨.invalidArgument "Key cannot be empty", by simp [changeConfiguration, hk]⟩
        · exact ⟨.invalidArgument "Value cannot be empty",
            by simp [changeConfiguration, hk, hv, Variant.isEmpty]⟩
  constructor
  · intro e he
    by_cases hk : key = ""
    · refine ⟨⟨"Key cannot be empty", ?_⟩, ?_, ?_, ?_⟩ <;>
        simp_all [changeConfiguration, hk]
    · by_cases hv : val = none
      · refine ⟨⟨"Value cannot be empty", ?_⟩, ?_, ?_, ?_⟩ <;>
          simp_all [changeConfiguration, hk, hv, Variant.isEmpty]
      · have hvb : val.isEmpty = false := by
          cases val
          · exact absurd rfl hv
          · rfl
        simp [changeConfiguration, hk, hvb] at he
  · intro hk hv
    have hvb : val.isEmpty = false := by
      cases val
      · exact absurd rfl hv
      · rfl
    simp [changeConfiguration, hk, hvb]

/-- C5 counterexample: at runtime, ChangeConfiguration accepts a non-empty
variant holding an unsupported D-Bus type (here an int32 array, signature
"ai"): the call succeeds and the value is stored in the ConfigMap, so
unsupported values are not rejected on the runtime path. -/
theorem changeConfiguration_stores_unsupported_variant :
    (changeConfiguration { configuration := [] } "key"
        (some (.vOther "ai"))).outcome = .ok () ∧
    listLookup (changeConfiguration { configuration := [] } "key"
        (some (.vOther "ai"))).state.configuration "key" =
      some (some (.vOther "ai")) := by
  constructor <;> rfl

/-- C5 as amended: values of unsupported JSON kind are rejected with
json::type_error 302 at load time (adl_serializer::from_json), but the
runtime ChangeConfiguration path checks only that the key and the variant
are non-empty, so any non-empty variant of an unsupported D-Bus type is
accepted and stored in the ConfigMap. -/
theorem unsupported_values_rejected_at_load_only
    (j : Json) (hj : j.unsupportedKind = true)
    (st : AppConfigState) (key : String) (sig : String) (hk : key ≠ "") :
    variantFromJson j =
      .error (.jsonTypeError 302 "Unsupported type for variant conversion") ∧
    (changeConfiguration st key (some (.vOther sig))).outcome = .ok () ∧
    listLookup (changeConfiguration st key
        (some (.vOther sig))).state.configuration key =
      some (some (.vOther sig)) := by
  refine ⟨?_, ?_, ?_⟩
  · cases j <;> simp_all [Json.unsupportedKind, variantFromJson]
  · simp [changeConfiguration, hk, Variant.isEmpty]
  · simp [changeConfiguration, hk, Variant.isEmpty, listLookup_listUpdate_self]

/-- Witness for the amended C5 at a concrete JSON array and a concrete
runtime call. -/
theorem unsupported_values_rejected_at_load_only_witness :
    variantFromJson (.jArr [.jInt 1]) =
      .error (.jsonTypeError 302 "Unsupported type for variant conversion") ∧
    (changeConfiguration { configuration := [("a", some (.vInt64 2))] } "k"
        (some (.vOther "a{sv}"))).outcome = .ok () ∧
    listLookup (changeConfiguration { configuration := [("a", some (.vInt64 2))] }
        "k" (some (.vOther "a{sv}"))).state.configuration "k" =
      some (some (.vOther "a{sv}")) :=
  unsupported_values_rejected_at_load_only (.jArr [.jInt 1]) rfl
    { configuration := [("a", some (.vInt64 2))] } "k" "a{sv}" (by decide)

/-- C6 counterexample: the three failure causes of parseConfig (absent
file, malformed content, unsupported value type) all reach the caller as
the same dynamic exception type std::runtime_error, so the three causes
are not distinguishable by error kind, only by message text. -/
theorem parseConfig_failure_kinds_collapse :
    parseConfig none =
      .error (.runtimeError "Config parsing failed: Could not open config file") ∧
    parseConfig (some (.error "[json.exception.parse_error.101] syntax error")) =
      .error (.runtimeError
        "Config parsing failed: [json.exception.parse_error.101] syntax error") ∧
    parseConfig (some (.ok (.jObj [("k", .jNull)]))) =
      .error (.runtimeError
        "Config parsing failed: [json.exception.type_error.302] Unsupported type for variant conversion") ∧
    (CppErr.runtimeError "Config parsing failed: Could not open config file").kind =
      (CppErr.runtimeError
        "Config parsing failed: [json.exception.parse_error.101] syntax error").kind ∧
    (CppErr.runtimeError
        "Config parsing failed: [json.exception.parse_error.101] syntax error").kind =
      (CppErr.runtimeError
        "Config parsing failed: [json.exception.type_error.302] Unsupported type for variant conversion").kind := by
  refine ⟨rfl, rfl, rfl, rfl, rfl⟩

/-- C6 as amended: Load fails when the file is absent, when the content is
malformed, and when a value has an unsupported type, but every failure
surfaces as the single error kind std::runtime_error with the message
prefix "Config parsing failed: "; the causes are distinguishable only by
the message text. -/
theorem parseConfig_failures_single_kind
    (file : FileOnDisk) (e : CppErr) (hf : parseConfig file = .error e)
    (pm : String) (key : String) (j : Json) (hj : j.unsupportedKind = true) :
    (∃ msg, e = .runtimeError ("Config parsing failed: " ++ msg)) ∧
    (∀ d, parseConfig none ≠ .ok d) ∧
    (∀ d, parseConfig (some (.error pm)) ≠ .ok d) ∧
    (∀ d, parseConfig (some (.ok (.jObj [(key, j)]))) ≠ .ok d) := by
  refine ⟨?_, ?_, ?_, ?_⟩
  · match file, hf with
    | none, hf =>
      exact ⟨"Could not open config file", by
        simpa [parseConfig] using hf.symm⟩
    | some (.error m), hf =>
      exact ⟨m, by simpa [parseConfig, CppErr.what] using hf.symm⟩
    | some (.ok j0), hf =>
      rw [parseConfig] at hf
      match hg : jsonGetConfigDict j0 with
      | .error e0 =>
        rw [hg] at hf
        exact ⟨e0.what, by simpa using hf.symm⟩
      | .ok d =>
        rw [hg] at hf
        exact absurd hf (by simp)
  · intro d
    simp [parseConfig]
  · intro d
    simp [parseConfig]
  · intro d h
    rw [parseConfig] at h
    have hg : jsonGetConfigDict (.jObj [(key, j)]) =
        .error (.jsonTypeError 302 "Unsupported type for variant conversion") := by
      cases j <;> simp_all [Json.unsupportedKind, jsonGetConfigDict,
        jsonGetConfigDict.goFields, variantFromJson, Bind.bind, Except.bind]
    rw [hg] at h
    exact absurd h (by simp)

/-- Witness for the amended C6 at a concrete absent file. -/
theorem parseConfig_failures_single_kind_witness :
    (∃ msg, CppErr.runtimeError "Config parsing failed: Could not open config file" =
      .runtimeError ("Config parsing failed: " ++ msg)) ∧
    (∀ d, parseConfig none ≠ .ok d) ∧
    (∀ d, parseConfig (some (.error "unexpected end of input")) ≠ .ok d) ∧
    (∀ d, parseConfig (some (.ok (.jObj [("Timeout", .jArr [])]))) ≠ .ok d) :=
  parseConfig_failures_single_kind none
    (.runtimeError "Config parsing failed: Could not open config file") rfl
    "unexpected end of input" "Timeout" (.jArr []) rfl

/-- C7: delivering the same configurationChanged snapshot twice in a row
leaves the client cache exactly as one delivery does (idempotence of the
notification handler). -/
theorem handleConfigurationChange_idempotent (snap : ConfigDict) (c : ClientCache) :
    handleConfigurationChange snap (handleConfigurationChange snap c) =
      handleConfigurationChange snap c := by
  unfold handleConfigurationChange
  rcases hT : listLookup snap "Timeout" with _ | v <;>
    rcases hP : listLookup snap "TimeoutPhrase" with _ | w
  · rfl
  · cases hw : w.getString <;> simp [hw]
  · cases hv : v.getInt64 <;> simp [hv]
  · cases hv : v.getInt64 <;> cases hw : w.getString <;> simp [hv, hw]

/-- C8: in a delivered snapshot where one recognized key is malformed and
the other is well formed, the handler updates the well-formed key's cache
field to the delivered value, leaves the malformed key's field unchanged,
and completes without failing (the handler is a total function). -/
theorem handleConfigurationChange_partial_failure
    (snap : ConfigDict) (c : ClientCache) :
    (∀ tv pv s, listLookup snap "Timeout" = some tv → tv.getInt64 = none →
      listLookup snap "TimeoutPhrase" = some pv → pv.getString = some s →
      (handleConfigurationChange snap c).timeout = c.timeout ∧
      (handleConfigurationChange snap c).timeoutPhrase = s) ∧
    (∀ tv pv n, listLookup snap "Timeout" = some tv → tv.getInt64 = some n →
      listLookup snap "TimeoutPhrase" = some pv → pv.getString = none →
      (handleConfigurationChange snap c).timeout = n ∧
      (handleConfigurationChange snap c).timeoutPhrase = c.timeoutPhrase) := by
  constructor
  · intro tv pv s hT hg hP hp
    simp [handleConfigurationChange, hT, hg, hP, hp]
  · intro tv pv n hT hg hP hp
    simp [handleConfigurationChange, hT, hg, hP, hp]

/-- Witness for C8: a malformed Timeout next to a well-formed TimeoutPhrase
and, at a second snapshot, a malformed TimeoutPhrase next to a well-formed
Timeout. -/
theorem handleConfigurationChange_partial_failure_witness :
    ((handleConfigurationChange
        [("Timeout", some (.vString "oops")), ("TimeoutPhrase", some (.vString "hi"))]
        { timeout := 1000, timeoutPhrase := "Hey" }).timeout = 1000 ∧
      (handleConfigurationChange
        [("Timeout", some (.vString "oops")), ("TimeoutPhrase", some (.vString "hi"))]
        { timeout := 1000, timeoutPhrase := "Hey" }).timeoutPhrase = "hi") ∧
    ((handleConfigurationChange
        [("Timeout", some (.vInt64 250)), ("TimeoutPhrase", some (.vBool false))]
        { timeout := 1000, timeoutPhrase := "Hey" }).timeout = 250 ∧
      (handleConfigurationChange
        [("Timeout", some (.vInt64 250)), ("TimeoutPhrase", some (.vBool false))]
        { timeout := 1000, timeoutPhrase := "Hey" }).timeoutPhrase = "Hey") :=
  ⟨(handleConfigurationChange_partial_failure
      [("Timeout", some (.vString "oops")), ("TimeoutPhrase", some (.vString "hi"))]
      { timeout := 1000, timeoutPhrase := "Hey" }).1
      (some (.vString "oops")) (some (.vString "hi")) "hi" rfl rfl rfl rfl,
   (handleConfigurationChange_partial_failure
      [("Timeout", some (.vInt64 250)), ("TimeoutPhrase", some (.vBool false))]
      { timeout := 1000, timeoutPhrase := "Hey" }).2
      (some (.vInt64 250)) (some (.vBool false)) 250 rfl rfl rfl rfl⟩

/-- C9: both public ClientApplication constructors delegate with
forceCreate = true, so a client startup always writes the caller-supplied
defaults over any existing configuration file, the cache holds exactly
those defaults, and the result never depends on what the existing file
contains: the load-from-existing-file branch of loadConfiguration is
unreachable from the public interface. -/
theorem clientCtor_public_always_force_creates
    (t : Int) (p : String) (file : FileOnDisk) :
    clientCtorPublic t p file =
      { outcome := .ok ()
        cache := { timeout := t, timeoutPhrase := p }
        written := some (clientDefaultDoc t p) } ∧
    clientCtorDefault file =
      { outcome := .ok ()
        cache := { timeout := 1000, timeoutPhrase := "Hey" }
        written := some (clientDefaultDoc 1000 "Hey") } := by
  constructor <;> (cases file <;> rfl)

theorem listLookup_eq_none_of_not_mem {α : Type} (m : List (String × α))
    (k : String) (h : k ∉ m.map Prod.fst) : listLookup m k = none := by
  induction m with
  | nil => rfl
  | cons hd tl ih =>
    obtain ⟨k1, v1⟩ := hd
    rw [List.map_cons] at h
    have h1 : k1 ≠ k := fun he => h (List.mem_cons.mpr (Or.inl he.symm))
    simpa [listLookup, h1] using ih (fun hm => h (List.mem_cons.mpr (Or.inr hm)))

theorem listLookup_jsonObjSet (doc : Json) (k1 : String) (x : Json) (k : String) :
    listLookup (jsonObjSet doc k1 x).objFields k =
      if k1 = k then some x else listLookup doc.objFields k := by
  by_cases h : k1 = k
  · subst h
    cases doc <;>
      simp [jsonObjSet, Json.objFields, listLookup, listLookup_listUpdate_self]
  · cases doc <;>
      simp [jsonObjSet, Json.objFields, listLookup, h,
        listLookup_listUpdate_ne _ _ _ _ h]

theorem saveLoop_lookup (cfg : ConfigDict) (doc : Json) (k : String)
    (h : (cfg.map Prod.fst).Nodup) :
    listLookup (saveLoop doc cfg).objFields k =
      ((listLookup cfg k).bind variantToJson).or (listLookup doc.objFields k) := by
  induction cfg generalizing doc with
  | nil => simp [saveLoop, listLookup]
  | cons hd tl ih =>
    obtain ⟨k1, v⟩ := hd
    rw [List.map_cons, List.nodup_cons] at h
    cases hv : variantToJson v with
    | some x =>
      rw [show saveLoop doc ((k1, v) :: tl) = saveLoop (jsonObjSet doc k1 x) tl from by
        simp [saveLoop, hv]]
      rw [ih (jsonObjSet doc k1 x) h.2]
      by_cases hk : k1 = k
      · subst hk
        rw [listLookup_eq_none_of_not_mem tl k1 h.1]
        simp [listLookup, listLookup_jsonObjSet, hv]
      · simp [listLookup, hk, listLookup_jsonObjSet]
    | none =>
      rw [show saveLoop doc ((k1, v) :: tl) = saveLoop doc tl from by
        simp [saveLoop, hv]]
      rw [ih doc h.2]
      by_cases hk : k1 = k
      · subst hk
        rw [listLookup_eq_none_of_not_mem tl k1 h.1]
        simp [listLookup, hv]
      · simp [listLookup, hk]

/-- C10: the document saveConfigToFile writes is exactly the restriction of
the in-memory map to entries whose variant passes one of the four supported
type tests: every supported entry appears converted, every other entry is
silently left out (the function is total, so nothing is rejected or
reported), and `variantToJson` succeeds exactly on supported variants. -/
theorem saveConfigToFile_writes_supported_restriction
    (cfg : ConfigDict) (h : (cfg.map Prod.fst).Nodup) (k : String) :
    listLookup (saveConfigToFile cfg).objFields k =
      (listLookup cfg k).bind variantToJson ∧
    (∀ v : Variant, (variantToJson v).isSome = v.supported) := by
  constructor
  · rw [saveConfigToFile, saveLoop_lookup cfg .jNull k h]
    simp [Json.objFields, listLookup]
  · intro v
    rcases v with _ | dv
    · rfl
    · cases dv <;> rfl

/-- Witness for C10: a map with one string entry and one array-typed entry;
the written document keeps the string and drops the array. -/
theorem saveConfigToFile_writes_supported_restriction_witness :
    (listLookup (saveConfigToFile
        [("a", some (.vString "x")), ("b", some (.vOther "ai"))]).objFields "b" =
      (listLookup [("a", some (.vString "x")), ("b", some (.vOther "ai"))] "b").bind
        variantToJson) ∧
    (listLookup (saveConfigToFile
        [("a", some (.vString "x")), ("b", some (.vOther "ai"))]).objFields "b" = none) :=
  ⟨(saveConfigToFile_writes_supported_restriction
      [("a", some (.vString "x")), ("b", some (.vOther "ai"))] (by decide) "b").1,
   ((saveConfigToFile_writes_supported_restriction
      [("a", some (.vString "x")), ("b", some (.vOther "ai"))] (by decide) "b").1).trans rfl⟩

theorem registerLoop_ok_lookup (fs : String → FileOnDisk)
    (apps : List (String × String)) :
    ∀ acc m, registerLoop fs acc apps = .ok m → ∀ name,
      (listLookup m name).map AppEndpoint.configPath =
        (lastConfigFor apps name).or
          ((listLookup acc name).map AppEndpoint.configPath) := by
  induction apps with
  | nil =>
    intro acc m h name
    rw [registerLoop] at h
    cases h
    simp [lastConfigFor]
  | cons hd rest ih =>
    obtain ⟨path, nm⟩ := hd
    intro acc m h name
    rw [registerLoop] at h
    match hp : parseConfig (fs path) with
    | .error e =>
      rw [hp] at h
      exact absurd h (by simp)
    | .ok d =>
      rw [hp] at h
      have hih := ih _ _ h name
      by_cases hn : nm = name
      · subst hn
        cases hl : lastConfigFor rest nm with
        | some p => simp [hih, lastConfigFor, hl]
        | none =>
          simp [hih, lastConfigFor, hl, listLookup_listUpdate_self]
      · have hlc : lastConfigFor ((path, nm) :: rest) name = lastConfigFor rest name := by
          cases hl : lastConfigFor rest name <;> simp [lastConfigFor, hl, hn]
        rw [hih, hlc, listLookup_listUpdate_ne _ _ _ _ hn]

theorem registerLoop_ok_nodup (fs : String → FileOnDisk)
    (apps : List (String × String)) :
    ∀ acc m, (acc.map Prod.fst).Nodup → registerLoop fs acc apps = .ok m →
      (m.map Prod.fst).Nodup := by
  induction apps with
  | nil =>
    intro acc m hacc h
    rw [registerLoop] at h
    cases h
    exact hacc
  | cons hd rest ih =>
    obtain ⟨path, nm⟩ := hd
    intro acc m hacc h
    rw [registerLoop] at h
    match hp : parseConfig (fs path) with
    | .error e =>
      rw [hp] at h
      exact absurd h (by simp)
    | .ok d =>
      rw [hp] at h
      exact ih _ _ (nodup_keys_listUpdate _ _ _ hacc) h

/-- C1 counterexample: two discovered files normalize to the stem "app";
startup registers a single endpoint for that name, but its configuration
file is the second (last) discovered path, not the first, because the
unordered_map assignment in initialize overwrites the earlier endpoint. -/
theorem broker_duplicate_name_first_wins_counterexample :
    brokerInitialize "confs" (fun _ => some (.ok (.jObj [])))
      [{ path := "confs/alpha/app.json", isRegularFile := true },
       { path := "confs/beta/app.json", isRegularFile := true }] =
      .ok [("app",
        { objectPath := "/com/system/configurationManager/Application/app"
          configPath := "confs/beta/app.json"
          state := { configuration := [] } })] ∧
    ("confs/beta/app.json" : String) ≠ "confs/alpha/app.json" := by
  exact ⟨rfl, by decide⟩

/-- C1 as amended: when broker startup succeeds, the registration map holds
at most one endpoint per application name (no duplicates, no crash in the
registration fold), and the endpoint registered for a name is the one from
the LAST file discovered with that name: initialize assigns through the
map's operator[], so a later duplicate overwrites an earlier one instead of
being skipped. -/
theorem broker_registers_one_endpoint_last_discovered_wins
    (configDir : String) (fs : String → FileOnDisk) (entries : List DirEntry)
    (apps : List (String × String)) (m : List (String × AppEndpoint))
    (hscan : getApplicationsConfigs configDir entries = .ok apps)
    (hinit : brokerInitialize configDir fs entries = .ok m) (name : String) :
    (m.map Prod.fst).Nodup ∧
    (listLookup m name).map AppEndpoint.configPath = lastConfigFor apps name := by
  have hreg : registerLoop fs [] apps = .ok m := by
    rw [brokerInitialize, hscan] at hinit
    simpa [Bind.bind, Except.bind] using hinit
  refine ⟨registerLoop_ok_nodup fs apps [] m (by simp) hreg, ?_⟩
  have hlk := registerLoop_ok_lookup fs apps [] m hreg name
  simpa [listLookup] using hlk

/-- Witness for the amended C1: a scan discovering nested app.json files
under two subdirectories, both with stem "app"; the registered endpoint
for "app" is the last discovered path. -/
theorem broker_registers_one_endpoint_last_discovered_wins_witness :
    (([("app",
        { objectPath := "/com/system/configurationManager/Application/app"
          configPath := "confs/two/app.json"
          state := { configuration := [] } })] :
        List (String × AppEndpoint)).map Prod.fst).Nodup ∧
    (listLookup ([("app",
        { objectPath := "/com/system/configurationManager/Application/app"
          configPath := "confs/two/app.json"
          state := { configuration := [] } })] :
        List (String × AppEndpoint)) "app").map
          AppEndpoint.configPath =
      lastConfigFor [("confs/one/app.json", "app"), ("confs/two/app.json", "app")]
        "app" :=
  broker_registers_one_endpoint_last_discovered_wins "confs"
    (fun _ => some (.ok (.jObj [])))
    [{ path := "confs/one/app.json", isRegularFile := true },
     { path := "confs/two/app.json", isRegularFile := true }]
    [("confs/one/app.json", "app"), ("confs/two/app.json", "app")]
    [("app",
      { objectPath := "/com/system/configurationManager/Application/app"
        configPath := "confs/two/app.json"
        state := { configuration := [] } })]
    rfl rfl "app"

/-- Witness for C4: the failure direction at an empty key (store untouched)
and the success direction at a present key and value. -/
theorem changeConfiguration_invalid_argument_characterization_witness :
    ((changeConfiguration { configuration := [("a", some (.vBool true))] } ""
        (some (.vInt64 1))).state = { configuration := [("a", some (.vBool true))] }) ∧
    ((changeConfiguration { configuration := [] } "k"
        (some (.vInt64 1))).outcome = .ok ()) :=
  ⟨((changeConfiguration_invalid_argument_characterization
      { configuration := [("a", some (.vBool true))] } "" (some (.vInt64 1))).2.1
      (.invalidArgument "Key cannot be empty") rfl).2.1,
   ((changeConfiguration_invalid_argument_characterization
      { configuration := [] } "k" (some (.vInt64 1))).2.2
      (by decide) (by decide)).1⟩
